import Mathlib

/-!
Verification of `smallest-enclosing-h3` (src/src/lib.rs, src/src/error.rs).

Embedding conventions:

* `f64` values that only flow through ordering comparisons (the radius
  validation in the builder) are modelled by `Fl`: an exact rational plus a
  `nan` value whose comparisons are all false, matching IEEE-754 comparison
  semantics.  Infinities do not occur in any claim and are omitted.
* `f64` values that flow through trigonometry (the geodesic math) are
  idealised as exact real numbers; `Fl.toReal` bridges the stored radius into
  the geometry layer (its value on `nan` is an unused junk value).
* The external `h3o` grid index is not part of this repository's sources; it
  is modelled by the record `H3Grid` holding the three primitives the code
  calls (`to_cell`, `grid_distance`, `grid_ring_fast`), with the signatures
  the code relies on.  `grid_ring_fast` yields `Option` cells exactly like
  `h3o::CellIndex::grid_ring_fast`, where `none` marks an entry the index
  failed to produce.  Cell identifiers are opaque; they are modelled by `Nat`.
* Rust `Result` is `Except`, and the `?` operator is `Except.bind`.
-/

/-- Model of an `f64` restricted to the values the validation logic can
observe: exact rationals plus NaN.  (src/src/lib.rs uses `f64` for the
radius; the only operation performed on it is `<=`.) -/
inductive Fl where
  | num (q : ℚ)
  | nan
deriving DecidableEq

/-- IEEE-754 `<=` on the `Fl` model: any comparison involving NaN is false. -/
def Fl.le : Fl → Fl → Bool
  | .num a, .num b => decide (a ≤ b)
  | _, _ => false

/-- Bridge from the stored `f64` into the idealised real-number geometry
layer.  `nan` is sent to the junk value `0`; no theorem below depends on the
image of `nan`. -/
noncomputable def Fl.toReal : Fl → ℝ
  | .num q => (q : ℝ)
  | .nan => 0

/-- Error enum of src/src/error.rs (`SmallestEnclosingH3Error`). -/
inductive SmallestEnclosingH3Error where
  | InvalidLatLng (msg : String)
  | InvalidResolution (msg : String)
  | InvalidRadius (msg : String)
  | GridDistanceError (msg : String)
  | GridRingError (msg : String)
deriving DecidableEq

/-- `h3o::Resolution`: the 16 legal H3 resolution levels 0..15. -/
abbrev Resolution := Fin 16

/-- `h3o::Resolution::try_from(u8)`: succeeds exactly on the legal levels. -/
def Resolution.try_from (r : Nat) : Except String Resolution :=
  if h : r < 16 then .ok ⟨r, h⟩ else .error "invalid resolution"

/-- `h3o::LatLng` (degrees).  The geometry layer is over exact reals. -/
structure LatLng where
  lat : ℝ
  lng : ℝ

/-- `h3o::LatLng::new(lat, lng)`.  In `h3o` this fails only when a coordinate
is a non-finite `f64`; exact reals are always finite, so the model always
succeeds.  The `Except` shape is kept because the caller `map_err`s it. -/
def LatLng.new (lat lng : ℝ) : Except String LatLng :=
  .ok ⟨lat, lng⟩

/-- `geo::Point<f64>`: `x` is longitude, `y` is latitude. -/
@[ext]
structure Point where
  x : ℝ
  y : ℝ

/-- Opaque H3 cell identifier (`h3o::CellIndex` is a `u64`; only identity is
consumed by this crate). -/
abbrev CellIndex := Nat

/-- Model of the external `h3o` grid-index collaborator: the three primitives
src/src/lib.rs calls.  `grid_distance` returns a signed integer or an error
message (`h3o` returns `Result<i32, LocalIjError>`); `grid_ring_fast` yields
`Option` cells, `none` marking an entry the index failed to enumerate. -/
structure H3Grid where
  to_cell : LatLng → Resolution → CellIndex
  grid_distance : CellIndex → CellIndex → Except String Int
  grid_ring_fast : CellIndex → Nat → List (Option CellIndex)

/-- Rust `as u32` applied to a signed integer: truncation to the low 32 bits
(src/src/lib.rs line 92, `k as u32`). -/
def u32_of_int (k : Int) : Nat :=
  (k % (2 ^ 32 : Int)).toNat

/-- `SmallestEnclosingH3Builder` (src/src/lib.rs lines 12-16). -/
structure SmallestEnclosingH3Builder where
  resolution : Resolution
  center : LatLng
  radius_meters : Fl

/-- `SmallestEnclosingH3` (src/src/lib.rs lines 65-69). -/
structure SmallestEnclosingH3 where
  resolution : Resolution
  center : LatLng
  radius_meters : Fl

/-- `SmallestEnclosingH3Builder::new` (src/src/lib.rs lines 19-25). -/
def SmallestEnclosingH3Builder.new (center : LatLng) (radius_meters : Fl)
    (resolution : Resolution) : SmallestEnclosingH3Builder :=
  { resolution := resolution, center := center, radius_meters := radius_meters }

/-- `SmallestEnclosingH3Builder::resolution` setter (src/src/lib.rs lines
27-31); named `resolution_set` because the field already uses the name. -/
def SmallestEnclosingH3Builder.resolution_set (self : SmallestEnclosingH3Builder)
    (resolution : Nat) : Except SmallestEnclosingH3Error SmallestEnclosingH3Builder :=
  match Resolution.try_from resolution with
  | .ok r => .ok { self with resolution := r }
  | .error e => .error (SmallestEnclosingH3Error.InvalidResolution e)

/-- `SmallestEnclosingH3Builder::center` setter (src/src/lib.rs lines 33-36). -/
def SmallestEnclosingH3Builder.center_set (self : SmallestEnclosingH3Builder)
    (center : LatLng) : SmallestEnclosingH3Builder :=
  { self with center := center }

/-- `SmallestEnclosingH3Builder::radius_meters` setter (src/src/lib.rs lines
38-46); named `radius_meters_set` because the field already uses the name. -/
def SmallestEnclosingH3Builder.radius_meters_set (self : SmallestEnclosingH3Builder)
    (radius : Fl) : Except SmallestEnclosingH3Error SmallestEnclosingH3Builder :=
  if radius.le (Fl.num 0) then
    .error (SmallestEnclosingH3Error.InvalidRadius "Radius must be positive")
  else
    .ok { self with radius_meters := radius }

/-- `SmallestEnclosingH3Builder::build` (src/src/lib.rs lines 48-60). -/
def SmallestEnclosingH3Builder.build (self : SmallestEnclosingH3Builder) :
    Except SmallestEnclosingH3Error SmallestEnclosingH3 :=
  if self.radius_meters.le (Fl.num 0) then
    .error (SmallestEnclosingH3Error.InvalidRadius "Radius must be positive")
  else
    .ok { resolution := self.resolution, center := self.center,
          radius_meters := self.radius_meters }

/-- `EARTH_RADIUS` (src/src/lib.rs line 8), in meters. -/
def EARTH_RADIUS : ℝ := 6371000

/-- Rust `f64::to_radians`. -/
noncomputable def toRadians (x : ℝ) : ℝ := x * (Real.pi / 180)

/-- Rust `f64::to_degrees`. -/
noncomputable def toDegrees (x : ℝ) : ℝ := x * (180 / Real.pi)

open Classical in
/-- Rust `f64::atan2(self = y, other = x)`: the four-quadrant arctangent,
idealised over exact reals (the signed-zero distinctions of IEEE-754 do not
exist in `ℝ`; the `x = y = 0` result is `0`, as for `atan2(+0, +0)`). -/
noncomputable def atan2 (y x : ℝ) : ℝ :=
  if 0 < x then Real.arctan (y / x)
  else if x < 0 ∧ 0 ≤ y then Real.arctan (y / x) + Real.pi
  else if x < 0 ∧ y < 0 then Real.arctan (y / x) - Real.pi
  else if x = 0 ∧ 0 < y then Real.pi / 2
  else if x = 0 ∧ y < 0 then -(Real.pi / 2)
  else 0

/-- Body of `SmallestEnclosingH3::destination_point` (src/src/lib.rs lines
114-136) before wrapping in `Ok`: the spherical direct-geodesic formula. -/
noncomputable def destination_point_raw (start : Point) (distance bearing : ℝ) : Point :=
  let lat1 := toRadians start.y
  let lon1 := toRadians start.x
  let angular_distance := distance / EARTH_RADIUS
  let lat2 := Real.arcsin (Real.sin lat1 * Real.cos angular_distance
    + Real.cos lat1 * Real.sin angular_distance * Real.cos bearing)
  let lon2 := lon1
    + atan2 (Real.sin bearing * Real.sin angular_distance * Real.cos lat1)
        (Real.cos angular_distance - Real.sin lat1 * Real.sin lat2)
  { x := toDegrees lon2, y := toDegrees lat2 }

/-- `SmallestEnclosingH3::destination_point` (src/src/lib.rs lines 114-136):
computes `destination_point_raw` and returns it wrapped in `Ok`. -/
noncomputable def destination_point (start : Point) (distance bearing : ℝ) :
    Except SmallestEnclosingH3Error Point :=
  .ok (destination_point_raw start distance bearing)

/-- `SmallestEnclosingH3::hexagons` (src/src/lib.rs lines 72-93),
parameterised by the grid-index collaborator `G`.  `.bind` is the `?`
operator; `List.reduceOption` is `.flatten().collect()` on the
`Option`-yielding ring iterator. -/
noncomputable def SmallestEnclosingH3.hexagons (G : H3Grid) (self : SmallestEnclosingH3) :
    Except SmallestEnclosingH3Error (List CellIndex) :=
  let center_cell := G.to_cell self.center self.resolution
  (destination_point ⟨self.center.lng, self.center.lat⟩ self.radius_meters.toReal 0).bind
    fun edge_lat =>
  ((LatLng.new edge_lat.y edge_lat.x).mapError SmallestEnclosingH3Error.InvalidLatLng).bind
    fun edge_ll =>
  let edge_cell := G.to_cell edge_ll self.resolution
  ((G.grid_distance center_cell edge_cell).mapError SmallestEnclosingH3Error.GridDistanceError).bind
    fun k =>
  .ok ((G.grid_ring_fast center_cell (u32_of_int k)).reduceOption)

/-- Body of one iteration of the sampling loop in
`SmallestEnclosingH3::generate_circle_coordinates` (src/src/lib.rs lines
100-104): bearing `i * 360 / num_points` degrees, pushed as `[x, y]`. -/
noncomputable def circle_point (self : SmallestEnclosingH3) (num_points : Nat) (i : Nat) :
    Except SmallestEnclosingH3Error (List ℝ) :=
  let bearing := toRadians ((i : ℝ) * 360 / (num_points : ℝ))
  (destination_point ⟨self.center.lng, self.center.lat⟩ self.radius_meters.toReal bearing).bind
    fun point =>
  .ok [point.x, point.y]

/-- The `for i in 0..=num_points` accumulation of
`generate_circle_coordinates`, unrolled as structural recursion:
`circle_coords_aux self n` performs the iterations `i = 0, …, n - 1` in
order, appending each sample (`Vec::push`). -/
noncomputable def circle_coords_aux (self : SmallestEnclosingH3) :
    Nat → Except SmallestEnclosingH3Error (List (List ℝ))
  | 0 => .ok []
  | n + 1 =>
    (circle_coords_aux self n).bind fun coordinates =>
    (circle_point self 64 n).bind fun point =>
    .ok (coordinates ++ [point])

/-- `SmallestEnclosingH3::generate_circle_coordinates` (src/src/lib.rs lines
95-112): 65 samples (`i = 0..=64`), then the first point is repeated to close
the polygon (`if let Some(first) = coordinates.first()`). -/
noncomputable def SmallestEnclosingH3.generate_circle_coordinates
    (self : SmallestEnclosingH3) : Except SmallestEnclosingH3Error (List (List ℝ)) :=
  (circle_coords_aux self (64 + 1)).bind fun coordinates =>
  match coordinates.head? with
  | some first => .ok (coordinates ++ [first])
  | none => .ok coordinates

/-- The value of sample `i` of the circle polygon (the `Ok` payload of
`circle_point self 64 i`). -/
noncomputable def circle_sample (self : SmallestEnclosingH3) (i : Nat) : List ℝ :=
  [(destination_point_raw ⟨self.center.lng, self.center.lat⟩ self.radius_meters.toReal
      (toRadians ((i : ℝ) * 360 / ((64 : Nat) : ℝ)))).x,
   (destination_point_raw ⟨self.center.lng, self.center.lat⟩ self.radius_meters.toReal
      (toRadians ((i : ℝ) * 360 / ((64 : Nat) : ℝ)))).y]

/-- The center cell `hexagons` starts from:
`self.center.to_cell(self.resolution)` (src/src/lib.rs line 73). -/
noncomputable def center_cell_of (G : H3Grid) (self : SmallestEnclosingH3) : CellIndex :=
  G.to_cell self.center self.resolution

/-- The edge point `hexagons` computes: the center projected due north
(bearing 0) by `radius_meters` meters (src/src/lib.rs lines 76-80). -/
noncomputable def edge_point_of (self : SmallestEnclosingH3) : Point :=
  destination_point_raw ⟨self.center.lng, self.center.lat⟩ self.radius_meters.toReal 0

/-- The edge cell `hexagons` resolves the edge point to (src/src/lib.rs lines
82-84). -/
noncomputable def edge_cell_of (G : H3Grid) (self : SmallestEnclosingH3) : CellIndex :=
  G.to_cell ⟨(edge_point_of self).y, (edge_point_of self).x⟩ self.resolution

/-- Modelled from the spec's words, section 4.2 (RingDistanceResolver):
"project the center point due north (bearing = 0) by exactly `radius_m`
meters using GeodesicProjector, obtaining an edge point; resolve the edge
point to its grid cell at `resolution`; compute the grid-distance between the
center cell and the edge cell; this is k", surfacing `GridDistanceError` when
the grid index cannot compute the distance.  Defined for comparison with
`SmallestEnclosingH3.hexagons`. -/
noncomputable def RingDistanceResolver.resolve_k (G : H3Grid) (center : LatLng)
    (radius_m : ℝ) (resolution : Resolution) : Except SmallestEnclosingH3Error Nat :=
  (destination_point ⟨center.lng, center.lat⟩ radius_m 0).bind fun edge_point =>
  ((LatLng.new edge_point.y edge_point.x).mapError SmallestEnclosingH3Error.InvalidLatLng).bind
    fun edge_ll =>
  ((G.grid_distance (G.to_cell center resolution) (G.to_cell edge_ll resolution)).mapError
      SmallestEnclosingH3Error.GridDistanceError).bind fun k =>
  .ok (u32_of_int k)

/-- Modelled from the spec's words, section 4.3 (CoverageEnumerator):
"delegates to the external grid index's ring-enumeration primitive" for the
cells at grid-distance exactly k — the ring, not the filled disk.  The
primitive available to the code is `grid_ring_fast`, whose `Option` failures
have no counterpart in the spec's interface; the delegation keeps its
successful outputs. -/
def CoverageEnumerator.ring_at (G : H3Grid) (center_cell : CellIndex) (k : Nat) :
    List CellIndex :=
  (G.grid_ring_fast center_cell k).reduceOption

/-- Concrete toy grid model used for witnesses: every point maps to cell 3,
every distance resolves to 0, and rings obey the spec's law that the ring at
distance 0 is exactly the origin cell. -/
def G0 : H3Grid where
  to_cell := fun _ _ => 3
  grid_distance := fun _ _ => .ok 0
  grid_ring_fast := fun c k => if k = 0 then [some c] else []

/-- Concrete region used with `G0`. -/
noncomputable def region0 : SmallestEnclosingH3 :=
  { resolution := 9, center := ⟨0, 0⟩, radius_meters := Fl.num 1000 }

/-- Concrete toy grid model for the ring-failure counterexample: the ring at
the resolved distance 1 contains an entry (`none`) that the index failed to
enumerate. -/
def G4 : H3Grid where
  to_cell := fun _ _ => 7
  grid_distance := fun _ _ => .ok 1
  grid_ring_fast := fun _ k => if k = 1 then [some 100, none, some 200] else []

/-- Concrete region used with `G4`. -/
noncomputable def region4 : SmallestEnclosingH3 :=
  { resolution := 12, center := ⟨0, 0⟩, radius_meters := Fl.num 50 }

/-- Concrete toy grid model for the emptiness counterexample: rings obey the
spec's interface contract (section 6: the ring at 0 yields exactly the input
cell, and a ring "may yield zero or more cells"), the resolved distance is 1,
and the ring at 1 yields zero cells. -/
def G5 : H3Grid where
  to_cell := fun _ _ => 7
  grid_distance := fun _ _ => .ok 1
  grid_ring_fast := fun c k => if k = 0 then [some c] else []

/-- Concrete validly built region used with `G5`. -/
noncomputable def region5 : SmallestEnclosingH3 :=
  { resolution := 9, center := ⟨0, 0⟩, radius_meters := Fl.num 50 }

/-- Concrete region near the antimeridian for the longitude-range claim:
center latitude 0, longitude 179.9, radius 6371000 m (one Earth radius). -/
noncomputable def region10 : SmallestEnclosingH3 :=
  { resolution := 12, center := ⟨0, 179.9⟩, radius_meters := Fl.num 6371000 }

/-! ## Helper lemmas -/

/-- Normal form of `hexagons`: the always-successful geodesic projection and
`LatLng` reconstruction reduce away, leaving the grid-distance query followed
by the ring enumeration. -/
theorem hexagons_eq (G : H3Grid) (self : SmallestEnclosingH3) :
    SmallestEnclosingH3.hexagons G self =
      ((G.grid_distance (center_cell_of G self) (edge_cell_of G self)).mapError
          SmallestEnclosingH3Error.GridDistanceError).bind fun k =>
        .ok ((G.grid_ring_fast (center_cell_of G self) (u32_of_int k)).reduceOption) := rfl

/-- Normal form of the spec-modelled `RingDistanceResolver.resolve_k`. -/
theorem resolve_k_eq (G : H3Grid) (self : SmallestEnclosingH3) :
    RingDistanceResolver.resolve_k G self.center self.radius_meters.toReal self.resolution =
      ((G.grid_distance (center_cell_of G self) (edge_cell_of G self)).mapError
          SmallestEnclosingH3Error.GridDistanceError).bind fun k =>
        .ok (u32_of_int k) := rfl

/-! ## Claim theorems -/

/-- C8: `destination_point` returns the `Ok` variant for every start point,
distance and bearing — it never returns an error, even though its signature
is `Result`. -/
theorem claim_C8_destination_point_never_fails (start : Point) (distance bearing : ℝ) :
    destination_point start distance bearing =
      .ok (destination_point_raw start distance bearing) := rfl

/-- C3: building a region fails with `InvalidRadius` exactly on radii `≤ 0`:
for every ordered radius value `q`, `build` (and the `radius_meters` setter)
rejects `q ≤ 0` with `InvalidRadius`, and `build` succeeds for `0 < q`. -/
theorem claim_C3_invalid_radius_validation (center : LatLng) (res : Resolution) (q : ℚ) :
    (q ≤ 0 →
      (SmallestEnclosingH3Builder.new center (Fl.num q) res).build =
        .error (SmallestEnclosingH3Error.InvalidRadius "Radius must be positive") ∧
      (SmallestEnclosingH3Builder.new center (Fl.num q) res).radius_meters_set (Fl.num q) =
        .error (SmallestEnclosingH3Error.InvalidRadius "Radius must be positive")) ∧
    (0 < q →
      (SmallestEnclosingH3Builder.new center (Fl.num q) res).build =
        .ok { resolution := res, center := center, radius_meters := Fl.num q }) := by
  constructor
  · intro h
    constructor <;>
      simp [SmallestEnclosingH3Builder.new, SmallestEnclosingH3Builder.build,
        SmallestEnclosingH3Builder.radius_meters_set, Fl.le, h]
  · intro h
    simp [SmallestEnclosingH3Builder.new, SmallestEnclosingH3Builder.build,
      Fl.le, not_le.mpr h]

/-- C3 witness: the concrete scenario center (0, 0), radius -1, resolution 9
fails with `InvalidRadius`. -/
theorem claim_C3_witness :
    (SmallestEnclosingH3Builder.new ⟨0, 0⟩ (Fl.num (-1)) 9).build =
      .error (SmallestEnclosingH3Error.InvalidRadius "Radius must be positive") :=
  ((claim_C3_invalid_radius_validation ⟨0, 0⟩ 9 (-1)).1 (by decide)).1

/-- C9: with `radius_meters = NaN` both the `radius_meters` setter and
`build` succeed (the validation only rejects values for which `radius ≤ 0.0`
holds, and every comparison with NaN is false), so a region whose radius is
not a strictly positive real number is constructible through the builder. -/
theorem claim_C9_nan_radius_accepted (center : LatLng) (res : Resolution)
    (b : SmallestEnclosingH3Builder) :
    b.radius_meters_set Fl.nan = .ok { b with radius_meters := Fl.nan } ∧
    (SmallestEnclosingH3Builder.new center Fl.nan res).build =
      .ok { resolution := res, center := center, radius_meters := Fl.nan } :=
  ⟨rfl, rfl⟩

/-- C1: `hexagons()` is exactly the spec's composition — the ring (not the
filled disk) enumerated at the cell of the center, at the grid distance k
obtained by projecting the center due north by `radius_meters` meters with
the spherical direct-geodesic formula, resolving that edge point to its cell,
and taking the grid distance between the two cells. -/
theorem claim_C1_hexagons_is_ring_at_resolved_k (G : H3Grid) (self : SmallestEnclosingH3) :
    SmallestEnclosingH3.hexagons G self =
      (RingDistanceResolver.resolve_k G self.center self.radius_meters.toReal
          self.resolution).bind fun k =>
        .ok (CoverageEnumerator.ring_at G (G.to_cell self.center self.resolution) k) := by
  rw [hexagons_eq, resolve_k_eq]
  cases G.grid_distance (center_cell_of G self) (edge_cell_of G self) with
  | error e => rfl
  | ok k => rfl

/-- C4 counterexample: a grid model whose ring at the resolved distance
contains an entry the index failed to enumerate (a `none` from
`grid_ring_fast`), yet `hexagons` returns `Ok` with the failed entry silently
dropped (cells 100 and 200 survive, the failed entry is gone) instead of
propagating a `GridRingError`. -/
theorem claim_C4_counterexample :
    none ∈ G4.grid_ring_fast (center_cell_of G4 region4) 1 ∧
    SmallestEnclosingH3.hexagons G4 region4 = .ok [100, 200] := by
  constructor
  · show none ∈ [some 100, none, some 200]
    simp
  · rfl

/-- C4 amended: `hexagons()` never returns `GridRingError`; its outcome is
either the propagated `GridDistanceError`, or `Ok` of the ring enumeration
with every entry the grid index failed to produce silently dropped
(`grid_ring_fast(..).flatten()`). -/
theorem claim_C4_amended_ring_failures_dropped (G : H3Grid) (self : SmallestEnclosingH3) :
    (∃ msg, SmallestEnclosingH3.hexagons G self =
        .error (SmallestEnclosingH3Error.GridDistanceError msg)) ∨
    (∃ k, G.grid_distance (center_cell_of G self) (edge_cell_of G self) = .ok k ∧
      SmallestEnclosingH3.hexagons G self =
        .ok ((G.grid_ring_fast (center_cell_of G self) (u32_of_int k)).reduceOption)) := by
  rw [hexagons_eq]
  cases h : G.grid_distance (center_cell_of G self) (edge_cell_of G self) with
  | error e => exact Or.inl ⟨e, rfl⟩
  | ok k => exact Or.inr ⟨k, rfl, rfl⟩

/-- C5 counterexample: a validly built region (radius 50 > 0, the same build
path as the library's tests) together with a grid model satisfying the spec's
interface contract for rings (the ring at 0 is exactly the origin cell; a
ring may yield zero cells), for which `hexagons()` returns `Ok []` — an
empty collection. -/
theorem claim_C5_counterexample :
    (SmallestEnclosingH3Builder.new ⟨0, 0⟩ (Fl.num 50) 9).build = .ok region5 ∧
    SmallestEnclosingH3.hexagons G5 region5 = .ok [] := by
  constructor
  · show Except.ok _ = _
    rfl
  · rfl

/-- C5 amended: `hexagons()` is non-empty whenever the resolved grid distance
k is 0 — it then returns exactly the center cell, given the grid law that the
ring at distance 0 is the origin cell; for k > 0 the code offers no
non-emptiness guarantee, since ring entries the grid index fails to produce
are dropped and a ring may enumerate zero cells. -/
theorem claim_C5_amended_nonempty_at_k_zero (G : H3Grid) (self : SmallestEnclosingH3)
    (hring : ∀ c, G.grid_ring_fast c 0 = [some c])
    (hk : G.grid_distance (center_cell_of G self) (edge_cell_of G self) = .ok 0) :
    SmallestEnclosingH3.hexagons G self = .ok [center_cell_of G self] := by
  rw [hexagons_eq, hk]
  show Except.ok ((G.grid_ring_fast (center_cell_of G self) (u32_of_int 0)).reduceOption) = _
  rw [show u32_of_int 0 = 0 from rfl, hring]
  rfl

/-- C5 amended witness: on the concrete grid model `G0` (distance always 0,
rings obeying the 0-ring law) and the concrete region `region0`, `hexagons`
returns exactly the center cell. -/
theorem claim_C5_amended_witness :
    G0.grid_distance (center_cell_of G0 region0) (edge_cell_of G0 region0) = .ok 0 ∧
    SmallestEnclosingH3.hexagons G0 region0 = .ok [center_cell_of G0 region0] :=
  ⟨rfl, claim_C5_amended_nonempty_at_k_zero G0 region0 (fun _ => rfl) rfl⟩

/-- One iteration of the sampling loop succeeds with the value
`circle_sample`. -/
theorem circle_point_eq (self : SmallestEnclosingH3) (i : Nat) :
    circle_point self 64 i = .ok (circle_sample self i) := rfl

/-- The accumulated samples after `n` iterations are the first `n` sample
values in bearing order. -/
theorem circle_coords_aux_eq (self : SmallestEnclosingH3) (n : Nat) :
    circle_coords_aux self n = .ok ((List.range n).map (circle_sample self)) := by
  induction n with
  | zero => rfl
  | succ n ih =>
    rw [circle_coords_aux, ih, circle_point_eq]
    show Except.ok _ = _
    rw [List.range_succ, List.map_append]
    rfl

/-- Closed form of `generate_circle_coordinates`: the 65 samples in bearing
order followed by a repetition of the first sample. -/
theorem generate_circle_coordinates_eq (self : SmallestEnclosingH3) :
    SmallestEnclosingH3.generate_circle_coordinates self =
      .ok ((List.range 65).map (circle_sample self) ++ [circle_sample self 0]) := by
  have hh : ((List.range (64 + 1)).map (circle_sample self)).head? =
      some (circle_sample self 0) := by
    rw [List.range_succ_eq_map]
    rfl
  unfold SmallestEnclosingH3.generate_circle_coordinates
  rw [circle_coords_aux_eq]
  simp only [Except.bind]
  split
  next first heq =>
    rw [hh] at heq
    cases heq
    rfl
  next heq =>
    rw [hh] at heq
    cases heq

/-- C6: for every region, `generate_circle_coordinates()` (with the default
sample count 64) returns exactly 66 coordinate pairs: the 65 bearing samples
`i = 0..=64` plus one repeated closing point.  In particular this holds for
every validly built region. -/
theorem claim_C6_circle_has_66_points (self : SmallestEnclosingH3) :
    ∃ coords, SmallestEnclosingH3.generate_circle_coordinates self = .ok coords ∧
      coords.length = 66 :=
  ⟨_, generate_circle_coordinates_eq self, by simp⟩

/-- C7: for every region, the sequence returned by
`generate_circle_coordinates()` has coordinate-equal first and last elements:
the ring is closed.  In particular this holds for every validly built
region. -/
theorem claim_C7_circle_is_closed (self : SmallestEnclosingH3) :
    ∃ coords first, SmallestEnclosingH3.generate_circle_coordinates self = .ok coords ∧
      coords.head? = some first ∧ coords.getLast? = some first := by
  refine ⟨_, circle_sample self 0, generate_circle_coordinates_eq self, ?_, ?_⟩
  · rw [show (65 : Nat) = 64 + 1 from rfl, List.range_succ_eq_map]
    rfl
  · exact List.getLast?_concat _

/-- Value of the geodesic projection from latitude 0, longitude 179.9, with
distance one Earth radius (angular distance 1) and bearing π/2 (due east):
the longitude grows by 180/π degrees and is not normalised. -/
theorem destination_point_raw_east :
    destination_point_raw ⟨179.9, 0⟩ 6371000 (Real.pi / 2) =
      ⟨179.9 + 180 / Real.pi, 0⟩ := by
  have hδ : (6371000 : ℝ) / EARTH_RADIUS = 1 := by
    rw [EARTH_RADIUS]; norm_num
  have h1 : (-(Real.pi / 2) : ℝ) < 1 := by nlinarith [Real.pi_pos]
  have h2 : (1 : ℝ) < Real.pi / 2 := by nlinarith [Real.pi_gt_three]
  have hatan : atan2 (Real.sin 1) (Real.cos 1) = 1 := by
    rw [atan2, if_pos Real.cos_one_pos, ← Real.tan_eq_sin_div_cos,
      Real.arctan_tan h1 h2]
  simp only [destination_point_raw, toRadians, toDegrees, hδ, zero_mul,
    Real.sin_zero, Real.cos_zero, Real.sin_pi_div_two, Real.cos_pi_div_two,
    mul_zero, mul_one, one_mul, zero_add, add_zero, sub_zero, Real.arcsin_zero]
  rw [hatan]
  simp only [Point.mk.injEq]
  refine ⟨?_, trivial⟩
  field_simp

/-- C10: `destination_point` does not normalise the returned longitude into
[-180, 180]: from the valid start point latitude 0, longitude 179.9, with
positive distance 6371000 m and due-east bearing π/2 radians, the returned
longitude is 179.9 + 180/π > 180; consequently `generate_circle_coordinates`
on the region `region10` (same center and radius) emits a coordinate pair
(its sample i = 16, bearing 90 degrees) whose longitude exceeds 180. -/
theorem claim_C10_longitude_not_normalized :
    (∃ p, destination_point ⟨179.9, 0⟩ 6371000 (Real.pi / 2) = .ok p ∧ 180 < p.x) ∧
    (∃ coords pt x,
      SmallestEnclosingH3.generate_circle_coordinates region10 = .ok coords ∧
      pt ∈ coords ∧ pt.head? = some x ∧ 180 < x) := by
  have hgt : (180 : ℝ) < 179.9 + 180 / Real.pi := by
    have h2 : (0 : ℝ) < Real.pi := Real.pi_pos
    have h3 : (0.1 : ℝ) < 180 / Real.pi := by
      rw [lt_div_iff₀ h2]
      nlinarith [Real.pi_lt_d2]
    linarith
  have hsample : circle_sample region10 16 = [179.9 + 180 / Real.pi, 0] := by
    have hr : Fl.toReal (Fl.num 6371000) = (6371000 : ℝ) := by
      simp [Fl.toReal]
    have hb : toRadians (((16 : ℕ) : ℝ) * 360 / ((64 : ℕ) : ℝ)) = Real.pi / 2 := by
      rw [toRadians]
      push_cast
      ring
    simp only [circle_sample, region10]
    rw [hr, hb, destination_point_raw_east]
  constructor
  · refine ⟨_, rfl, ?_⟩
    rw [destination_point_raw_east]
    exact hgt
  · refine ⟨_, circle_sample region10 16, 179.9 + 180 / Real.pi,
      generate_circle_coordinates_eq region10, ?_, ?_, hgt⟩
    · exact List.mem_append_left _
        (List.mem_map_of_mem _ (List.mem_range.mpr (by norm_num)))
    · rw [hsample]
      rfl
